import Mathlib

/-!
Verification development for the rfl repository: the rigid-body transform
kernel (geometry_utilities::RigidBodyTransform, src/src/RigidBodyTransform.cpp
and the templated copy in src/include/frl/geometry/RigidBodyTransform.hpp)
and the reference-frame graph (frame_utilities::ReferenceFrame).

Doubles are modelled as real numbers; the C library functions sqrt, sin, cos,
atan2 and fabs are modelled by their exact mathematical counterparts.
-/

noncomputable section

open Matrix

/-- The 3x4 rigid-body transform of geometry_utilities::RigidBodyTransform
(src/src/RigidBodyTransform.cpp): a rotation block matij (i,j in 0..2) and a
translation column mat03, mat13, mat23, stored as twelve scalars. -/
@[ext]
structure RigidBodyTransform where
  mat00 : ℝ
  mat01 : ℝ
  mat02 : ℝ
  mat03 : ℝ
  mat10 : ℝ
  mat11 : ℝ
  mat12 : ℝ
  mat13 : ℝ
  mat20 : ℝ
  mat21 : ℝ
  mat22 : ℝ
  mat23 : ℝ

namespace RigidBodyTransform

/-- RigidBodyTransform::setIdentity (src/src/RigidBodyTransform.cpp:492). -/
def setIdentity : RigidBodyTransform :=
  ⟨1, 0, 0, 0, 0, 1, 0, 0, 0, 0, 1, 0⟩

/-- RigidBodyTransform::multiply(transform1, transform) producing
transform1 * transform (src/src/RigidBodyTransform.cpp:974). -/
def multiply (a b : RigidBodyTransform) : RigidBodyTransform where
  mat00 := a.mat00 * b.mat00 + a.mat01 * b.mat10 + a.mat02 * b.mat20
  mat01 := a.mat00 * b.mat01 + a.mat01 * b.mat11 + a.mat02 * b.mat21
  mat02 := a.mat00 * b.mat02 + a.mat01 * b.mat12 + a.mat02 * b.mat22
  mat03 := a.mat00 * b.mat03 + a.mat01 * b.mat13 + a.mat02 * b.mat23 + a.mat03
  mat10 := a.mat10 * b.mat00 + a.mat11 * b.mat10 + a.mat12 * b.mat20
  mat11 := a.mat10 * b.mat01 + a.mat11 * b.mat11 + a.mat12 * b.mat21
  mat12 := a.mat10 * b.mat02 + a.mat11 * b.mat12 + a.mat12 * b.mat22
  mat13 := a.mat10 * b.mat03 + a.mat11 * b.mat13 + a.mat12 * b.mat23 + a.mat13
  mat20 := a.mat20 * b.mat00 + a.mat21 * b.mat10 + a.mat22 * b.mat20
  mat21 := a.mat20 * b.mat01 + a.mat21 * b.mat11 + a.mat22 * b.mat21
  mat22 := a.mat20 * b.mat02 + a.mat21 * b.mat12 + a.mat22 * b.mat22
  mat23 := a.mat20 * b.mat03 + a.mat21 * b.mat13 + a.mat22 * b.mat23 + a.mat23

/-- RigidBodyTransform::invertOrthogonal (src/src/RigidBodyTransform.cpp:1028).
The source first transposes the rotation block in place, then computes the new
translation from the transposed entries (mat01/mat02/mat12 already hold the old
mat10/mat20/mat21); below the old entries are substituted directly, giving
rotation R^T and translation -R^T * t. -/
def invertOrthogonal (a : RigidBodyTransform) : RigidBodyTransform where
  mat00 := a.mat00
  mat01 := a.mat10
  mat02 := a.mat20
  mat03 := -(a.mat23 * a.mat20 + a.mat00 * a.mat03 + a.mat10 * a.mat13)
  mat10 := a.mat01
  mat11 := a.mat11
  mat12 := a.mat21
  mat13 := -(a.mat03 * a.mat01 + a.mat23 * a.mat21 + a.mat11 * a.mat13)
  mat20 := a.mat02
  mat21 := a.mat12
  mat22 := a.mat22
  mat23 := -(a.mat22 * a.mat23 + a.mat03 * a.mat02 + a.mat13 * a.mat12)

/-- RigidBodyTransform::invert (src/src/RigidBodyTransform.cpp:1020); it just
calls invertOrthogonal. -/
def invert (a : RigidBodyTransform) : RigidBodyTransform :=
  a.invertOrthogonal

/-- The C++ condition `!fabs(d) < epsilon` as it actually parses:
`!fabs(d)` converts the double to bool and negates, yielding 1 when d = 0 and
0 otherwise, and that integer is compared to epsilon.  Used by
RigidBodyTransform::epsilonEquals (src/src/RigidBodyTransform.cpp:1150). -/
def bangFabsLt (d ε : ℝ) : Bool :=
  decide ((if |d| = 0 then (1 : ℝ) else 0) < ε)

/-- RigidBodyTransform::epsilonEquals (src/src/RigidBodyTransform.cpp:1148):
twelve sequential guards of the form `if (!fabs(a - b) < epsilon) return
false;`, then `return true`. -/
def epsilonEquals (a b : RigidBodyTransform) (ε : ℝ) : Bool :=
  if bangFabsLt (a.mat00 - b.mat00) ε then false
  else if bangFabsLt (a.mat01 - b.mat01) ε then false
  else if bangFabsLt (a.mat02 - b.mat02) ε then false
  else if bangFabsLt (a.mat03 - b.mat03) ε then false
  else if bangFabsLt (a.mat10 - b.mat10) ε then false
  else if bangFabsLt (a.mat11 - b.mat11) ε then false
  else if bangFabsLt (a.mat12 - b.mat12) ε then false
  else if bangFabsLt (a.mat13 - b.mat13) ε then false
  else if bangFabsLt (a.mat20 - b.mat20) ε then false
  else if bangFabsLt (a.mat21 - b.mat21) ε then false
  else if bangFabsLt (a.mat22 - b.mat22) ε then false
  else if bangFabsLt (a.mat23 - b.mat23) ε then false
  else true

end RigidBodyTransform

/-- Point3d of the geometry_utilities kernel: three scalars. -/
structure Point3d where
  x : ℝ
  y : ℝ
  z : ℝ

namespace RigidBodyTransform

/-- RigidBodyTransform::transform(Point3d&) (src/src/RigidBodyTransform.cpp:1295):
the affine image R * p + t, written back into the point. -/
def transformPoint3 (a : RigidBodyTransform) (p : Point3d) : Point3d where
  x := a.mat00 * p.x + a.mat01 * p.y + a.mat02 * p.z + a.mat03
  y := a.mat10 * p.x + a.mat11 * p.y + a.mat12 * p.z + a.mat13
  z := a.mat20 * p.x + a.mat21 * p.y + a.mat22 * p.z + a.mat23

/-- RigidBodyTransform::transform(const Eigen::Vector3d&, Eigen::Vector3d&)
(src/src/RigidBodyTransform.cpp:1268): the rotation-only image R * v. -/
def transformVector3 (a : RigidBodyTransform) (v : Point3d) : Point3d where
  x := a.mat00 * v.x + a.mat01 * v.y + a.mat02 * v.z
  y := a.mat10 * v.x + a.mat11 * v.y + a.mat12 * v.z
  z := a.mat20 * v.x + a.mat21 * v.y + a.mat22 * v.z

end RigidBodyTransform

/-- Homogeneous 4-vector used by RigidBodyTransform::transform(Eigen::Vector4d&). -/
structure Vector4d where
  x : ℝ
  y : ℝ
  z : ℝ
  w : ℝ

namespace RigidBodyTransform

/-- RigidBodyTransform::transform(Eigen::Vector4d&)
(src/src/RigidBodyTransform.cpp:1231).  The guard `vector(3) != 1.0` throws
std::runtime_error before any component is written; on success every
component is overwritten with R * x + t and the fourth with 1. -/
def transformHomogeneous (a : RigidBodyTransform) (v : Vector4d) :
    Except String Vector4d :=
  if v.w ≠ 1 then .error "Final element of vector must be 1."
  else .ok
    { x := a.mat00 * v.x + a.mat01 * v.y + a.mat02 * v.z + a.mat03
      y := a.mat10 * v.x + a.mat11 * v.y + a.mat12 * v.z + a.mat13
      z := a.mat20 * v.x + a.mat21 * v.y + a.mat22 * v.z + a.mat23
      w := 1 }

/-- Caller-visible value of the vector after a call to
RigidBodyTransform::transform(Eigen::Vector4d&): the argument is passed by
reference, but the throw happens before the first write, so on the error path
the caller still sees the original vector. -/
def transformHomogeneousCaller (a : RigidBodyTransform) (v : Vector4d) : Vector4d :=
  match a.transformHomogeneous v with
  | .error _ => v
  | .ok r => r

/-- Call semantics of RigidBodyTransform::transform(Eigen::Vector3d)
(src/src/RigidBodyTransform.cpp:1252).  The parameter is declared by value
(src/geometry_utilities/include/RigidBodyTransform.hpp:65), so the body writes
into a function-local copy; the first component is the caller's variable after
the call, the second is the callee's copy when the function returns. -/
def transformVector3ValueCall (a : RigidBodyTransform) (v : Point3d) :
    Point3d × Point3d :=
  (v, ⟨a.mat00 * v.x + a.mat01 * v.y + a.mat02 * v.z,
       a.mat10 * v.x + a.mat11 * v.y + a.mat12 * v.z,
       a.mat20 * v.x + a.mat21 * v.y + a.mat22 * v.z⟩)

/-- Call semantics of RigidBodyTransform::transform(Point3d, Point3d)
(src/src/RigidBodyTransform.cpp:1311).  Both parameters, including the
intended output pointOut, are declared by value
(src/geometry_utilities/include/RigidBodyTransform.hpp:68), so the result is
stored only in the callee's copy of pointOut; the first component is the pair
of caller variables after the call, the second the callee's copy. -/
def transformPointTwoArgCall (a : RigidBodyTransform) (pIn pOut : Point3d) :
    (Point3d × Point3d) × Point3d :=
  ((pIn, pOut),
   ⟨a.mat00 * pIn.x + a.mat01 * pIn.y + a.mat02 * pIn.z + a.mat03,
    a.mat10 * pIn.x + a.mat11 * pIn.y + a.mat12 * pIn.z + a.mat13,
    a.mat20 * pIn.x + a.mat21 * pIn.y + a.mat22 * pIn.z + a.mat23⟩)

end RigidBodyTransform

open RigidBodyTransform in
/-- C1: epsilonEquals was meant to compare each of the twelve scalars within
epsilon (its own doc comment says so), but `!fabs(a - b) < eps` parses as
`(!fabs(a-b)) < eps`; at the failing input below, every scalar of the two
transforms is within 1e-8, T and T agree exactly, yet the code returns false
for the first pair and even for (T, T) with epsilon = 2. -/
theorem c1_epsilonEquals_code_eval :
    let t : RigidBodyTransform := RigidBodyTransform.setIdentity
    let t' : RigidBodyTransform := ⟨1, 0, 0, 5e-9, 0, 1, 0, 0, 0, 0, 1, 0⟩
    (∀ d ∈ [t.mat00 - t'.mat00, t.mat01 - t'.mat01, t.mat02 - t'.mat02,
            t.mat03 - t'.mat03, t.mat10 - t'.mat10, t.mat11 - t'.mat11,
            t.mat12 - t'.mat12, t.mat13 - t'.mat13, t.mat20 - t'.mat20,
            t.mat21 - t'.mat21, t.mat22 - t'.mat22, t.mat23 - t'.mat23],
        |d| < 1e-8) ∧
    epsilonEquals t t' 1e-8 = false ∧
    epsilonEquals t t 2 = false := by
  refine ⟨?_, ?_, ?_⟩
  · intro d hd
    simp only [RigidBodyTransform.setIdentity, List.mem_cons, List.not_mem_nil,
      or_false] at hd
    rcases hd with h | h | h | h | h | h | h | h | h | h | h | h <;>
      rw [h] <;> norm_num [abs_lt]
  · simp only [RigidBodyTransform.epsilonEquals, RigidBodyTransform.bangFabsLt,
      RigidBodyTransform.setIdentity]
    norm_num
  · simp only [RigidBodyTransform.epsilonEquals, RigidBodyTransform.bangFabsLt,
      RigidBodyTransform.setIdentity]
    norm_num

/-- C7: for every transform and every 3-vector, the point transform minus the
vector transform is exactly the translation column, componentwise. -/
theorem c7_point_minus_vector_is_translation
    (a : RigidBodyTransform) (p : Point3d) :
    (a.transformPoint3 p).x - (a.transformVector3 p).x = a.mat03 ∧
    (a.transformPoint3 p).y - (a.transformVector3 p).y = a.mat13 ∧
    (a.transformPoint3 p).z - (a.transformVector3 p).z = a.mat23 := by
  refine ⟨?_, ?_, ?_⟩ <;>
    simp [RigidBodyTransform.transformPoint3, RigidBodyTransform.transformVector3]

/-- C10: the by-value overloads transform(Eigen::Vector3d) and
transform(Point3d, Point3d) leave every caller-visible variable unchanged,
while their function-local copies receive the rotation-only image R * v and
the affine image R * p + t respectively. -/
theorem c10_by_value_overloads_leave_caller_unchanged
    (a : RigidBodyTransform) (v pIn pOut : Point3d) :
    (a.transformVector3ValueCall v).1 = v ∧
    (a.transformPointTwoArgCall pIn pOut).1 = (pIn, pOut) ∧
    (a.transformVector3ValueCall v).2 = a.transformVector3 v ∧
    (a.transformPointTwoArgCall pIn pOut).2 = a.transformPoint3 pIn := by
  refine ⟨rfl, rfl, ?_, ?_⟩ <;>
    simp [RigidBodyTransform.transformVector3ValueCall,
      RigidBodyTransform.transformPointTwoArgCall,
      RigidBodyTransform.transformVector3, RigidBodyTransform.transformPoint3]

/-- C4: the homogeneous transform raises exactly when the fourth component is
not 1; on the error path the caller's vector is untouched (the throw precedes
every write), and on success the result is R * x + t with fourth component 1. -/
theorem c4_homogeneous_guard (a : RigidBodyTransform) (v : Vector4d) :
    ((∃ msg, a.transformHomogeneous v = .error msg) ↔ v.w ≠ 1) ∧
    (v.w ≠ 1 → a.transformHomogeneousCaller v = v) ∧
    (v.w = 1 → a.transformHomogeneous v =
      .ok ⟨a.mat00 * v.x + a.mat01 * v.y + a.mat02 * v.z + a.mat03,
           a.mat10 * v.x + a.mat11 * v.y + a.mat12 * v.z + a.mat13,
           a.mat20 * v.x + a.mat21 * v.y + a.mat22 * v.z + a.mat23, 1⟩) := by
  refine ⟨⟨?_, ?_⟩, ?_, ?_⟩
  · rintro ⟨msg, hmsg⟩ hw
    simp [RigidBodyTransform.transformHomogeneous, hw] at hmsg
  · intro hw
    exact ⟨"Final element of vector must be 1.", by
      simp [RigidBodyTransform.transformHomogeneous, hw]⟩
  · intro hw
    simp [RigidBodyTransform.transformHomogeneousCaller,
      RigidBodyTransform.transformHomogeneous, hw]
  · intro hw
    simp [RigidBodyTransform.transformHomogeneous, hw]

/-- Witness for C4 at a concrete transform and vectors: the identity transform
maps (1,2,3,1) to itself and rejects (1,2,3,0). -/
theorem c4_homogeneous_guard_witness :
    ((∃ msg, RigidBodyTransform.setIdentity.transformHomogeneous ⟨1, 2, 3, 0⟩ =
        .error msg) ↔ (0 : ℝ) ≠ 1) ∧
    ((1 : ℝ) = 1 → RigidBodyTransform.setIdentity.transformHomogeneous ⟨1, 2, 3, 1⟩ =
      .ok ⟨1 * 1 + 0 * 2 + 0 * 3 + 0, 0 * 1 + 1 * 2 + 0 * 3 + 0,
           0 * 1 + 0 * 2 + 1 * 3 + 0, 1⟩) := by
  constructor
  · exact (c4_homogeneous_guard RigidBodyTransform.setIdentity ⟨1, 2, 3, 0⟩).1
  · exact (c4_homogeneous_guard RigidBodyTransform.setIdentity ⟨1, 2, 3, 1⟩).2.2

/-- The 3x3 rotation block of a transform as a Mathlib matrix. -/
def RigidBodyTransform.rotMat (a : RigidBodyTransform) : Matrix (Fin 3) (Fin 3) ℝ :=
  Matrix.of ![![a.mat00, a.mat01, a.mat02],
              ![a.mat10, a.mat11, a.mat12],
              ![a.mat20, a.mat21, a.mat22]]

/-- A proper rotation: orthogonal with determinant +1 (the invariant the spec
states for the rotation part of a RigidBodyTransform). -/
def RigidBodyTransform.IsProperRotation (a : RigidBodyTransform) : Prop :=
  (a.rotMat)ᵀ * a.rotMat = 1 ∧ (a.rotMat).det = 1

/-- Row orthonormality equations extracted from R * R^T = 1. -/
theorem RigidBodyTransform.rowOrtho (a : RigidBodyTransform)
    (h : a.rotMat * (a.rotMat)ᵀ = 1) :
    a.mat00 * a.mat00 + a.mat01 * a.mat01 + a.mat02 * a.mat02 = 1 ∧
    a.mat00 * a.mat10 + a.mat01 * a.mat11 + a.mat02 * a.mat12 = 0 ∧
    a.mat00 * a.mat20 + a.mat01 * a.mat21 + a.mat02 * a.mat22 = 0 ∧
    a.mat10 * a.mat10 + a.mat11 * a.mat11 + a.mat12 * a.mat12 = 1 ∧
    a.mat10 * a.mat20 + a.mat11 * a.mat21 + a.mat12 * a.mat22 = 0 ∧
    a.mat20 * a.mat20 + a.mat21 * a.mat21 + a.mat22 * a.mat22 = 1 := by
  refine ⟨?_, ?_, ?_, ?_, ?_, ?_⟩
  · simpa [RigidBodyTransform.rotMat, Matrix.mul_apply, Fin.sum_univ_three,
      Matrix.one_apply] using congrFun (congrFun h 0) 0
  · simpa [RigidBodyTransform.rotMat, Matrix.mul_apply, Fin.sum_univ_three,
      Matrix.one_apply] using congrFun (congrFun h 0) 1
  · simpa [RigidBodyTransform.rotMat, Matrix.mul_apply, Fin.sum_univ_three,
      Matrix.one_apply] using congrFun (congrFun h 0) 2
  · simpa [RigidBodyTransform.rotMat, Matrix.mul_apply, Fin.sum_univ_three,
      Matrix.one_apply] using congrFun (congrFun h 1) 1
  · simpa [RigidBodyTransform.rotMat, Matrix.mul_apply, Fin.sum_univ_three,
      Matrix.one_apply] using congrFun (congrFun h 1) 2
  · simpa [RigidBodyTransform.rotMat, Matrix.mul_apply, Fin.sum_univ_three,
      Matrix.one_apply] using congrFun (congrFun h 2) 2

/-- Column orthonormality equations extracted from R^T * R = 1. -/
theorem RigidBodyTransform.colOrtho (a : RigidBodyTransform)
    (h : (a.rotMat)ᵀ * a.rotMat = 1) :
    a.mat00 * a.mat00 + a.mat10 * a.mat10 + a.mat20 * a.mat20 = 1 ∧
    a.mat00 * a.mat01 + a.mat10 * a.mat11 + a.mat20 * a.mat21 = 0 ∧
    a.mat00 * a.mat02 + a.mat10 * a.mat12 + a.mat20 * a.mat22 = 0 ∧
    a.mat01 * a.mat01 + a.mat11 * a.mat11 + a.mat21 * a.mat21 = 1 ∧
    a.mat01 * a.mat02 + a.mat11 * a.mat12 + a.mat21 * a.mat22 = 0 ∧
    a.mat02 * a.mat02 + a.mat12 * a.mat12 + a.mat22 * a.mat22 = 1 := by
  refine ⟨?_, ?_, ?_, ?_, ?_, ?_⟩
  · simpa [RigidBodyTransform.rotMat, Matrix.mul_apply, Fin.sum_univ_three,
      Matrix.one_apply] using congrFun (congrFun h 0) 0
  · simpa [RigidBodyTransform.rotMat, Matrix.mul_apply, Fin.sum_univ_three,
      Matrix.one_apply] using congrFun (congrFun h 0) 1
  · simpa [RigidBodyTransform.rotMat, Matrix.mul_apply, Fin.sum_univ_three,
      Matrix.one_apply] using congrFun (congrFun h 0) 2
  · simpa [RigidBodyTransform.rotMat, Matrix.mul_apply, Fin.sum_univ_three,
      Matrix.one_apply] using congrFun (congrFun h 1) 1
  · simpa [RigidBodyTransform.rotMat, Matrix.mul_apply, Fin.sum_univ_three,
      Matrix.one_apply] using congrFun (congrFun h 1) 2
  · simpa [RigidBodyTransform.rotMat, Matrix.mul_apply, Fin.sum_univ_three,
      Matrix.one_apply] using congrFun (congrFun h 2) 2

/-- Twelve-scalar closeness: each stored scalar of a is within eps of the
corresponding scalar of b (the comparison the claims phrase as epsilon
closeness of transforms). -/
def entriesWithin (a b : RigidBodyTransform) (ε : ℝ) : Prop :=
  |a.mat00 - b.mat00| ≤ ε ∧ |a.mat01 - b.mat01| ≤ ε ∧ |a.mat02 - b.mat02| ≤ ε ∧
  |a.mat03 - b.mat03| ≤ ε ∧ |a.mat10 - b.mat10| ≤ ε ∧ |a.mat11 - b.mat11| ≤ ε ∧
  |a.mat12 - b.mat12| ≤ ε ∧ |a.mat13 - b.mat13| ≤ ε ∧ |a.mat20 - b.mat20| ≤ ε ∧
  |a.mat21 - b.mat21| ≤ ε ∧ |a.mat22 - b.mat22| ≤ ε ∧ |a.mat23 - b.mat23| ≤ ε

/-- Helper for C5: with a proper rotation part, T * invert(T) is exactly the
identity transform. -/
theorem RigidBodyTransform.multiply_invert_eq_identity (a : RigidBodyTransform)
    (h : a.IsProperRotation) :
    a.multiply a.invert = RigidBodyTransform.setIdentity := by
  obtain ⟨horth, -⟩ := h
  obtain ⟨r00, r01, r02, r11, r12, r22⟩ :=
    a.rowOrtho (Matrix.mul_eq_one_comm.mpr horth)
  refine RigidBodyTransform.ext ?_ ?_ ?_ ?_ ?_ ?_ ?_ ?_ ?_ ?_ ?_ ?_ <;>
    simp only [RigidBodyTransform.multiply, RigidBodyTransform.invert,
      RigidBodyTransform.invertOrthogonal, RigidBodyTransform.setIdentity]
  · linear_combination r00
  · linear_combination r01
  · linear_combination r02
  · linear_combination (-a.mat03) * r00 + (-a.mat13) * r01 + (-a.mat23) * r02
  · linear_combination r01
  · linear_combination r11
  · linear_combination r12
  · linear_combination (-a.mat03) * r01 + (-a.mat13) * r11 + (-a.mat23) * r12
  · linear_combination r02
  · linear_combination r12
  · linear_combination r22
  · linear_combination (-a.mat03) * r02 + (-a.mat13) * r12 + (-a.mat23) * r22

/-- Helper for C5: with a proper rotation part, invert(T) * T is exactly the
identity transform. -/
theorem RigidBodyTransform.invert_multiply_eq_identity (a : RigidBodyTransform)
    (h : a.IsProperRotation) :
    a.invert.multiply a = RigidBodyTransform.setIdentity := by
  obtain ⟨horth, -⟩ := h
  obtain ⟨c00, c01, c02, c11, c12, c22⟩ := a.colOrtho horth
  refine RigidBodyTransform.ext ?_ ?_ ?_ ?_ ?_ ?_ ?_ ?_ ?_ ?_ ?_ ?_ <;>
    simp only [RigidBodyTransform.multiply, RigidBodyTransform.invert,
      RigidBodyTransform.invertOrthogonal, RigidBodyTransform.setIdentity]
  · linear_combination c00
  · linear_combination c01
  · linear_combination c02
  · ring
  · linear_combination c01
  · linear_combination c11
  · linear_combination c12
  · ring
  · linear_combination c02
  · linear_combination c12
  · linear_combination c22
  · ring

/-- C5: for every transform whose rotation part is a proper rotation,
composing with the orthogonal inverse in either order yields a transform whose
twelve scalars are each within 1e-8 of the identity transform (in exact
arithmetic, exactly the identity). -/
theorem c5_compose_invert_identity (a : RigidBodyTransform)
    (h : a.IsProperRotation) :
    entriesWithin (a.multiply a.invert) RigidBodyTransform.setIdentity 1e-8 ∧
    entriesWithin (a.invert.multiply a) RigidBodyTransform.setIdentity 1e-8 := by
  rw [a.multiply_invert_eq_identity h, a.invert_multiply_eq_identity h]
  constructor <;>
    · refine ⟨?_, ?_, ?_, ?_, ?_, ?_, ?_, ?_, ?_, ?_, ?_, ?_⟩ <;> norm_num

/-- Witness for C5: the z-axis quarter-turn with translation (1,2,3) is a
proper rotation and satisfies the composition-inverse property. -/
theorem c5_compose_invert_identity_witness :
    (RigidBodyTransform.IsProperRotation ⟨0, -1, 0, 1, 1, 0, 0, 2, 0, 0, 1, 3⟩) ∧
    entriesWithin
      (RigidBodyTransform.multiply ⟨0, -1, 0, 1, 1, 0, 0, 2, 0, 0, 1, 3⟩
        (RigidBodyTransform.invert ⟨0, -1, 0, 1, 1, 0, 0, 2, 0, 0, 1, 3⟩))
      RigidBodyTransform.setIdentity 1e-8 := by
  have hrot : RigidBodyTransform.IsProperRotation
      ⟨0, -1, 0, 1, 1, 0, 0, 2, 0, 0, 1, 3⟩ := by
    refine ⟨?_, ?_⟩
    · have h : (RigidBodyTransform.rotMat ⟨0, -1, 0, 1, 1, 0, 0, 2, 0, 0, 1, 3⟩)ᵀ =
          Matrix.of ![![0, 1, 0], ![-1, 0, 0], ![0, 0, 1]] := by
        ext i j
        fin_cases i <;> fin_cases j <;> rfl
      rw [h]
      ext i j
      fin_cases i <;> fin_cases j <;>
        simp [RigidBodyTransform.rotMat, Matrix.mul_apply, Fin.sum_univ_three,
          Matrix.one_apply, Matrix.vecHead, Matrix.vecTail]
    · simp [RigidBodyTransform.rotMat, Matrix.det_fin_three]
  exact ⟨hrot, (c5_compose_invert_identity _ hrot).1⟩

/-- Quaternion record (x, y, z, w) of the geometry_utilities Quaternion class
(the class itself only stores the four components used here). -/
structure GeomQuaternion where
  x : ℝ
  y : ℝ
  z : ℝ
  w : ℝ

namespace GeomQuaternion

/-- Euclidean norm of the four components. -/
def norm (q : GeomQuaternion) : ℝ :=
  Real.sqrt (q.x * q.x + q.y * q.y + q.z * q.z + q.w * q.w)

/-- Modelled from the spec: Quaternion::normalize (Quaternion.hpp is not under
src); the spec says the quaternion getter result is then normalised, i.e. each
component is divided by the Euclidean norm. -/
def normalize (q : GeomQuaternion) : GeomQuaternion :=
  ⟨q.x / q.norm, q.y / q.norm, q.z / q.norm, q.w / q.norm⟩

/-- Normalising a quaternion with positive squared norm yields a unit
quaternion. -/
theorem norm_normalize (q : GeomQuaternion)
    (h : 0 < q.x * q.x + q.y * q.y + q.z * q.z + q.w * q.w) :
    q.normalize.norm = 1 := by
  have hn : 0 < q.norm := Real.sqrt_pos.mpr h
  have hsq : q.norm * q.norm = q.x * q.x + q.y * q.y + q.z * q.z + q.w * q.w :=
    Real.mul_self_sqrt h.le
  have key : q.normalize.x * q.normalize.x + q.normalize.y * q.normalize.y +
      q.normalize.z * q.normalize.z + q.normalize.w * q.normalize.w = 1 := by
    simp only [normalize]
    have expand : q.x / q.norm * (q.x / q.norm) + q.y / q.norm * (q.y / q.norm) +
        q.z / q.norm * (q.z / q.norm) + q.w / q.norm * (q.w / q.norm) =
        (q.x * q.x + q.y * q.y + q.z * q.z + q.w * q.w) / (q.norm * q.norm) := by
      ring
    rw [expand, hsq, div_self h.ne']
  unfold norm
  rw [key, Real.sqrt_one]

end GeomQuaternion

/-- The four branches of the quaternion extraction in
RigidBodyTransform::getRotation(Quaternion&) (src/src/RigidBodyTransform.cpp:649). -/
inductive QuatBranch
  | wBranch
  | yBranch
  | xBranch
  | zBranch
deriving DecidableEq

namespace RigidBodyTransform

/-- Branch selected by the conditional cascade of
RigidBodyTransform::getRotation(Quaternion&) (src/src/RigidBodyTransform.cpp:656):
trace branch when trace > 0, else the y branch when mat11 > mat22, else the
x branch when mat00 > mat11 and mat00 > mat22, else the z branch. -/
def quatBranchOf (a : RigidBodyTransform) : QuatBranch :=
  if a.mat00 + a.mat11 + a.mat22 > 0 then .wBranch
  else if a.mat11 > a.mat22 then .yBranch
  else if a.mat00 > a.mat11 ∧ a.mat00 > a.mat22 then .xBranch
  else .zBranch

/-- Per-branch quaternion formulas of
RigidBodyTransform::getRotation(Quaternion&) (src/src/RigidBodyTransform.cpp:656),
before normalisation; the local variable val of the source is inlined. -/
def quatBranchFormula (a : RigidBodyTransform) : QuatBranch → GeomQuaternion
  | .wBranch =>
      ⟨(a.mat21 - a.mat12) / (Real.sqrt (a.mat00 + a.mat11 + a.mat22 + 1) * 2),
       (a.mat02 - a.mat20) / (Real.sqrt (a.mat00 + a.mat11 + a.mat22 + 1) * 2),
       (a.mat10 - a.mat01) / (Real.sqrt (a.mat00 + a.mat11 + a.mat22 + 1) * 2),
       0.25 * (Real.sqrt (a.mat00 + a.mat11 + a.mat22 + 1) * 2)⟩
  | .yBranch =>
      ⟨(a.mat01 + a.mat10) / (Real.sqrt (max 0 (1 + a.mat11 - a.mat00 - a.mat22)) * 2),
       0.25 * (Real.sqrt (max 0 (1 + a.mat11 - a.mat00 - a.mat22)) * 2),
       (a.mat12 + a.mat21) / (Real.sqrt (max 0 (1 + a.mat11 - a.mat00 - a.mat22)) * 2),
       (a.mat02 - a.mat20) / (Real.sqrt (max 0 (1 + a.mat11 - a.mat00 - a.mat22)) * 2)⟩
  | .xBranch =>
      ⟨0.25 * (Real.sqrt (1 + a.mat00 - a.mat11 - a.mat22) * 2),
       (a.mat01 + a.mat10) / (Real.sqrt (1 + a.mat00 - a.mat11 - a.mat22) * 2),
       (a.mat02 + a.mat20) / (Real.sqrt (1 + a.mat00 - a.mat11 - a.mat22) * 2),
       (a.mat21 - a.mat12) / (Real.sqrt (1 + a.mat00 - a.mat11 - a.mat22) * 2)⟩
  | .zBranch =>
      ⟨(a.mat02 + a.mat20) / (Real.sqrt (1 + a.mat22 - a.mat00 - a.mat11) * 2),
       (a.mat12 + a.mat21) / (Real.sqrt (1 + a.mat22 - a.mat00 - a.mat11) * 2),
       0.25 * (Real.sqrt (1 + a.mat22 - a.mat00 - a.mat11) * 2),
       (a.mat10 - a.mat01) / (Real.sqrt (1 + a.mat22 - a.mat00 - a.mat11) * 2)⟩

/-- RigidBodyTransform::getRotation(Quaternion&)
(src/src/RigidBodyTransform.cpp:649): the conditional cascade written out as
in the source, before the final normalize call. -/
def getRotationQuaternionRaw (a : RigidBodyTransform) : GeomQuaternion :=
  if a.mat00 + a.mat11 + a.mat22 > 0 then
    ⟨(a.mat21 - a.mat12) / (Real.sqrt (a.mat00 + a.mat11 + a.mat22 + 1) * 2),
     (a.mat02 - a.mat20) / (Real.sqrt (a.mat00 + a.mat11 + a.mat22 + 1) * 2),
     (a.mat10 - a.mat01) / (Real.sqrt (a.mat00 + a.mat11 + a.mat22 + 1) * 2),
     0.25 * (Real.sqrt (a.mat00 + a.mat11 + a.mat22 + 1) * 2)⟩
  else if a.mat11 > a.mat22 then
    ⟨(a.mat01 + a.mat10) / (Real.sqrt (max 0 (1 + a.mat11 - a.mat00 - a.mat22)) * 2),
     0.25 * (Real.sqrt (max 0 (1 + a.mat11 - a.mat00 - a.mat22)) * 2),
     (a.mat12 + a.mat21) / (Real.sqrt (max 0 (1 + a.mat11 - a.mat00 - a.mat22)) * 2),
     (a.mat02 - a.mat20) / (Real.sqrt (max 0 (1 + a.mat11 - a.mat00 - a.mat22)) * 2)⟩
  else if a.mat00 > a.mat11 ∧ a.mat00 > a.mat22 then
    ⟨0.25 * (Real.sqrt (1 + a.mat00 - a.mat11 - a.mat22) * 2),
     (a.mat01 + a.mat10) / (Real.sqrt (1 + a.mat00 - a.mat11 - a.mat22) * 2),
     (a.mat02 + a.mat20) / (Real.sqrt (1 + a.mat00 - a.mat11 - a.mat22) * 2),
     (a.mat21 - a.mat12) / (Real.sqrt (1 + a.mat00 - a.mat11 - a.mat22) * 2)⟩
  else
    ⟨(a.mat02 + a.mat20) / (Real.sqrt (1 + a.mat22 - a.mat00 - a.mat11) * 2),
     (a.mat12 + a.mat21) / (Real.sqrt (1 + a.mat22 - a.mat00 - a.mat11) * 2),
     0.25 * (Real.sqrt (1 + a.mat22 - a.mat00 - a.mat11) * 2),
     (a.mat10 - a.mat01) / (Real.sqrt (1 + a.mat22 - a.mat00 - a.mat11) * 2)⟩

/-- RigidBodyTransform::getRotation(Quaternion&) including the final
quat.normalize() call (src/src/RigidBodyTransform.cpp:693). -/
def getRotationQuaternion (a : RigidBodyTransform) : GeomQuaternion :=
  a.getRotationQuaternionRaw.normalize

end RigidBodyTransform

/-- C2 counterexample: the rotation by pi about the unit axis (2/sqrt5, 1/sqrt5, 0)
is a proper rotation for which the strictly largest of the four quantities
trR+1, 1+R00-R11-R22, 1+R11-R00-R22, 1+R22-R00-R11 is the second one (the x
quantity), yet getRotation(Quaternion&) computes the result in the y branch,
because its cascade tests mat11 > mat22 before testing whether mat00 is the
largest diagonal. -/
theorem c2_branch_counterexample :
    (RigidBodyTransform.IsProperRotation
      ⟨3/5, 4/5, 0, 0, 4/5, -3/5, 0, 0, 0, 0, -1, 0⟩) ∧
    (let a : RigidBodyTransform := ⟨3/5, 4/5, 0, 0, 4/5, -3/5, 0, 0, 0, 0, -1, 0⟩
     1 + a.mat00 - a.mat11 - a.mat22 > a.mat00 + a.mat11 + a.mat22 + 1 ∧
     1 + a.mat00 - a.mat11 - a.mat22 > 1 + a.mat11 - a.mat00 - a.mat22 ∧
     1 + a.mat00 - a.mat11 - a.mat22 > 1 + a.mat22 - a.mat00 - a.mat11 ∧
     RigidBodyTransform.quatBranchOf a = QuatBranch.yBranch) ∧
    QuatBranch.yBranch ≠ QuatBranch.xBranch := by
  refine ⟨⟨?_, ?_⟩, ⟨?_, ?_, ?_, ?_⟩, by decide⟩
  · have h : (RigidBodyTransform.rotMat ⟨3/5, 4/5, 0, 0, 4/5, -3/5, 0, 0, 0, 0, -1, 0⟩)ᵀ =
        Matrix.of ![![3/5, 4/5, 0], ![4/5, -3/5, 0], ![0, 0, -1]] := by
      ext i j
      fin_cases i <;> fin_cases j <;> rfl
    rw [h]
    ext i j
    fin_cases i <;> fin_cases j <;>
      simp [RigidBodyTransform.rotMat, Matrix.mul_apply, Fin.sum_univ_three,
        Matrix.one_apply, Matrix.vecHead, Matrix.vecTail] <;> norm_num
  · simp [RigidBodyTransform.rotMat, Matrix.det_fin_three]
    norm_num
  · norm_num
  · norm_num
  · norm_num
  · simp only [RigidBodyTransform.quatBranchOf]
    norm_num

/-- C2 amended: for every transform whose rotation part is a proper rotation,
the quaternion getter computes the formula of the branch its cascade selects
(trace branch when trR > 0, else y when R11 > R22, else x when R00 is the
strictly largest diagonal, else z), and the returned quaternion has unit
Euclidean norm. -/
theorem c2_quaternion_getter_normalised (a : RigidBodyTransform)
    (h : a.IsProperRotation) :
    a.getRotationQuaternionRaw = a.quatBranchFormula a.quatBranchOf ∧
    a.getRotationQuaternion.norm = 1 := by
  obtain ⟨horth, -⟩ := h
  obtain ⟨r00, r01, r02, r11, r12, r22⟩ :=
    a.rowOrtho (Matrix.mul_eq_one_comm.mpr horth)
  have hb00u : a.mat00 ≤ 1 := by nlinarith [sq_nonneg a.mat01, sq_nonneg a.mat02]
  have hb00l : (-1 : ℝ) ≤ a.mat00 := by
    nlinarith [sq_nonneg a.mat01, sq_nonneg a.mat02]
  have hb11u : a.mat11 ≤ 1 := by nlinarith [sq_nonneg a.mat10, sq_nonneg a.mat12]
  have hb22u : a.mat22 ≤ 1 := by nlinarith [sq_nonneg a.mat20, sq_nonneg a.mat21]
  have hbranch : a.getRotationQuaternionRaw = a.quatBranchFormula a.quatBranchOf := by
    unfold RigidBodyTransform.getRotationQuaternionRaw
      RigidBodyTransform.quatBranchOf RigidBodyTransform.quatBranchFormula
    split_ifs <;> rfl
  refine ⟨hbranch, ?_⟩
  unfold RigidBodyTransform.getRotationQuaternion
  unfold RigidBodyTransform.getRotationQuaternionRaw
  split_ifs with h1 h2 h3
  · apply GeomQuaternion.norm_normalize
    have htr : (0 : ℝ) < a.mat00 + a.mat11 + a.mat22 + 1 := by linarith
    have hspos : 0 < Real.sqrt (a.mat00 + a.mat11 + a.mat22 + 1) :=
      Real.sqrt_pos.mpr htr
    have hw : (0 : ℝ) <
        0.25 * (Real.sqrt (a.mat00 + a.mat11 + a.mat22 + 1) * 2) := by linarith
    simp only
    have := mul_pos hw hw
    linarith [mul_self_nonneg ((a.mat21 - a.mat12) /
        (Real.sqrt (a.mat00 + a.mat11 + a.mat22 + 1) * 2)),
      mul_self_nonneg ((a.mat02 - a.mat20) /
        (Real.sqrt (a.mat00 + a.mat11 + a.mat22 + 1) * 2)),
      mul_self_nonneg ((a.mat10 - a.mat01) /
        (Real.sqrt (a.mat00 + a.mat11 + a.mat22 + 1) * 2))]
  · apply GeomQuaternion.norm_normalize
    have htemp : (0 : ℝ) < max 0 (1 + a.mat11 - a.mat00 - a.mat22) :=
      lt_max_of_lt_right (by linarith)
    have hspos : 0 < Real.sqrt (max 0 (1 + a.mat11 - a.mat00 - a.mat22)) :=
      Real.sqrt_pos.mpr htemp
    have hy : (0 : ℝ) <
        0.25 * (Real.sqrt (max 0 (1 + a.mat11 - a.mat00 - a.mat22)) * 2) := by
      linarith
    simp only
    have := mul_pos hy hy
    linarith [mul_self_nonneg ((a.mat01 + a.mat10) /
        (Real.sqrt (max 0 (1 + a.mat11 - a.mat00 - a.mat22)) * 2)),
      mul_self_nonneg ((a.mat12 + a.mat21) /
        (Real.sqrt (max 0 (1 + a.mat11 - a.mat00 - a.mat22)) * 2)),
      mul_self_nonneg ((a.mat02 - a.mat20) /
        (Real.sqrt (max 0 (1 + a.mat11 - a.mat00 - a.mat22)) * 2))]
  · apply GeomQuaternion.norm_normalize
    obtain ⟨h3a, h3b⟩ := h3
    have htemp : (0 : ℝ) < 1 + a.mat00 - a.mat11 - a.mat22 := by linarith
    have hspos : 0 < Real.sqrt (1 + a.mat00 - a.mat11 - a.mat22) :=
      Real.sqrt_pos.mpr htemp
    have hx : (0 : ℝ) <
        0.25 * (Real.sqrt (1 + a.mat00 - a.mat11 - a.mat22) * 2) := by linarith
    simp only
    have := mul_pos hx hx
    linarith [mul_self_nonneg ((a.mat01 + a.mat10) /
        (Real.sqrt (1 + a.mat00 - a.mat11 - a.mat22) * 2)),
      mul_self_nonneg ((a.mat02 + a.mat20) /
        (Real.sqrt (1 + a.mat00 - a.mat11 - a.mat22) * 2)),
      mul_self_nonneg ((a.mat21 - a.mat12) /
        (Real.sqrt (1 + a.mat00 - a.mat11 - a.mat22) * 2))]
  · apply GeomQuaternion.norm_normalize
    push_neg at h1 h2 h3
    have htemp : (0 : ℝ) < 1 + a.mat22 - a.mat00 - a.mat11 := by
      rcases lt_trichotomy a.mat00 a.mat11 with hcase | hcase | hcase
      · linarith
      · linarith
      · have := h3 hcase
        linarith
    have hspos : 0 < Real.sqrt (1 + a.mat22 - a.mat00 - a.mat11) :=
      Real.sqrt_pos.mpr htemp
    have hz : (0 : ℝ) <
        0.25 * (Real.sqrt (1 + a.mat22 - a.mat00 - a.mat11) * 2) := by linarith
    simp only
    have := mul_pos hz hz
    linarith [mul_self_nonneg ((a.mat02 + a.mat20) /
        (Real.sqrt (1 + a.mat22 - a.mat00 - a.mat11) * 2)),
      mul_self_nonneg ((a.mat12 + a.mat21) /
        (Real.sqrt (1 + a.mat22 - a.mat00 - a.mat11) * 2)),
      mul_self_nonneg ((a.mat10 - a.mat01) /
        (Real.sqrt (1 + a.mat22 - a.mat00 - a.mat11) * 2))]

/-- Witness for C2 amended at the identity rotation: a proper rotation whose
extracted quaternion has unit norm. -/
theorem c2_quaternion_getter_normalised_witness :
    (RigidBodyTransform.IsProperRotation RigidBodyTransform.setIdentity) ∧
    RigidBodyTransform.setIdentity.getRotationQuaternion.norm = 1 := by
  have hrot : RigidBodyTransform.IsProperRotation RigidBodyTransform.setIdentity := by
    refine ⟨?_, ?_⟩
    · have h : (RigidBodyTransform.rotMat RigidBodyTransform.setIdentity)ᵀ =
          Matrix.of ![![1, 0, 0], ![0, 1, 0], ![0, 0, 1]] := by
        ext i j
        fin_cases i <;> fin_cases j <;> rfl
      rw [h]
      ext i j
      fin_cases i <;> fin_cases j <;>
        simp [RigidBodyTransform.rotMat, RigidBodyTransform.setIdentity,
          Matrix.mul_apply, Fin.sum_univ_three, Matrix.one_apply,
          Matrix.vecHead, Matrix.vecTail]
    · simp [RigidBodyTransform.rotMat, RigidBodyTransform.setIdentity,
        Matrix.det_fin_three]
  exact ⟨hrot, (c2_quaternion_getter_normalised _ hrot).2⟩

/-- Axis-angle record.  AxisAngle.hpp is not under src; the field order
(x, y, z, angle) follows the spec's record (ax, ay, az, theta) and the
constructor usage AxisAngle ret(x, y, z, angle) with fields .x .y .z .angle in
src/test/GeometryUtilitiesTestHelper.hpp.  AxisAngle::set takes the four
components in the same order. -/
structure AxisAngle where
  x : ℝ
  y : ℝ
  z : ℝ
  angle : ℝ

/-- The C library atan2, modelled as the argument of the complex number
x + i*y (principal value in (-pi, pi]). -/
def atan2 (y x : ℝ) : ℝ :=
  Complex.arg ⟨x, y⟩

namespace RigidBodyTransform

/-- RigidBodyTransform::isRotationMatrixEpsilonIdentity
(src/src/RigidBodyTransform.cpp:803): off-diagonal sums and the trace are each
within epsilon of the identity's. -/
def isRotationMatrixEpsilonIdentity (a : RigidBodyTransform) (ε : ℝ) : Prop :=
  |a.mat01 + a.mat10| < ε ∧ |a.mat02 + a.mat20| < ε ∧ |a.mat12 + a.mat21| < ε ∧
  |a.mat00 + a.mat11 + a.mat22 - 3| < ε

instance (a : RigidBodyTransform) (ε : ℝ) :
    Decidable (a.isRotationMatrixEpsilonIdentity ε) := by
  unfold RigidBodyTransform.isRotationMatrixEpsilonIdentity
  infer_instance

/-- RigidBodyTransform::getRotation(AxisAngle&, const double&)
(src/src/RigidBodyTransform.cpp:706).  The initial axis components are the
off-diagonal asymmetries; mag is their squared sum.  When mag > epsilon the
general branch applies; otherwise the near-identity test selects
set(0.0, 1.0, 0.0, 0.0), i.e. axis (0,1,0) with angle 0, and failing that the
antipodal branch returns angle pi with the axis recovered from the dominating
diagonal.  Local variables are inlined. -/
def getRotationAxisAngle (a : RigidBodyTransform) (ε : ℝ) : AxisAngle :=
  if (a.mat21 - a.mat12) * (a.mat21 - a.mat12) +
     (a.mat02 - a.mat20) * (a.mat02 - a.mat20) +
     (a.mat10 - a.mat01) * (a.mat10 - a.mat01) > ε then
    ⟨(a.mat21 - a.mat12) / Real.sqrt ((a.mat21 - a.mat12) * (a.mat21 - a.mat12) +
        (a.mat02 - a.mat20) * (a.mat02 - a.mat20) +
        (a.mat10 - a.mat01) * (a.mat10 - a.mat01)),
     (a.mat02 - a.mat20) / Real.sqrt ((a.mat21 - a.mat12) * (a.mat21 - a.mat12) +
        (a.mat02 - a.mat20) * (a.mat02 - a.mat20) +
        (a.mat10 - a.mat01) * (a.mat10 - a.mat01)),
     (a.mat10 - a.mat01) / Real.sqrt ((a.mat21 - a.mat12) * (a.mat21 - a.mat12) +
        (a.mat02 - a.mat20) * (a.mat02 - a.mat20) +
        (a.mat10 - a.mat01) * (a.mat10 - a.mat01)),
     atan2 (0.5 * Real.sqrt ((a.mat21 - a.mat12) * (a.mat21 - a.mat12) +
        (a.mat02 - a.mat20) * (a.mat02 - a.mat20) +
        (a.mat10 - a.mat01) * (a.mat10 - a.mat01)))
       (0.5 * (a.mat00 + a.mat11 + a.mat22 - 1))⟩
  else if a.isRotationMatrixEpsilonIdentity (10 * ε) then
    ⟨0, 1, 0, 0⟩
  else
    if ((a.mat00 + 1) / 2 > (a.mat11 + 1) / 2) ∧ ((a.mat00 + 1) / 2 > (a.mat22 + 1) / 2) then
      if (a.mat00 + 1) / 2 < ε then
        ⟨0, Real.cos (Real.pi / 4), Real.cos (Real.pi / 4), Real.pi⟩
      else
        ⟨Real.sqrt ((a.mat00 + 1) / 2),
         ((a.mat01 + a.mat10) / 4) / Real.sqrt ((a.mat00 + 1) / 2),
         ((a.mat02 + a.mat20) / 4) / Real.sqrt ((a.mat00 + 1) / 2),
         Real.pi⟩
    else if (a.mat11 + 1) / 2 > (a.mat22 + 1) / 2 then
      if (a.mat11 + 1) / 2 < ε then
        ⟨Real.cos (Real.pi / 4), 0, Real.cos (Real.pi / 4), Real.pi⟩
      else
        ⟨((a.mat01 + a.mat10) / 4) / Real.sqrt ((a.mat11 + 1) / 2),
         Real.sqrt ((a.mat11 + 1) / 2),
         ((a.mat12 + a.mat21) / 4) / Real.sqrt ((a.mat11 + 1) / 2),
         Real.pi⟩
    else
      if (a.mat22 + 1) / 2 < ε then
        ⟨Real.cos (Real.pi / 4), Real.cos (Real.pi / 4), 0, Real.pi⟩
      else
        ⟨((a.mat02 + a.mat20) / 4) / Real.sqrt ((a.mat22 + 1) / 2),
         ((a.mat12 + a.mat21) / 4) / Real.sqrt ((a.mat22 + 1) / 2),
         Real.sqrt ((a.mat22 + 1) / 2),
         Real.pi⟩

end RigidBodyTransform

/-- C3 counterexample: at the rotation diag(1,-1,-1) (rotation by pi about x)
every off-diagonal asymmetry is 0, below the default threshold 1e-12, yet the
extraction takes the antipodal branch and returns angle pi, not 0; and at the
identity matrix, where the near-identity branch is taken, the axis written by
set(0.0, 1.0, 0.0, 0.0) is (0, 1, 0), not (1, 0, 0). -/
theorem c3_axis_angle_counterexample :
    (let d : RigidBodyTransform := ⟨1, 0, 0, 0, 0, -1, 0, 0, 0, 0, -1, 0⟩
     (d.mat21 - d.mat12 = 0 ∧ d.mat02 - d.mat20 = 0 ∧ d.mat10 - d.mat01 = 0) ∧
     d.getRotationAxisAngle 1e-12 = ⟨1, 0, 0, Real.pi⟩) ∧
    Real.pi ≠ 0 ∧
    RigidBodyTransform.setIdentity.getRotationAxisAngle 1e-12 = ⟨0, 1, 0, 0⟩ ∧
    ((0 : ℝ), (1 : ℝ), (0 : ℝ)) ≠ ((1 : ℝ), (0 : ℝ), (0 : ℝ)) := by
  refine ⟨⟨⟨by norm_num, by norm_num, by norm_num⟩, ?_⟩, Real.pi_ne_zero, ?_, by norm_num⟩
  · simp only [RigidBodyTransform.getRotationAxisAngle,
      RigidBodyTransform.isRotationMatrixEpsilonIdentity]
    norm_num [Real.sqrt_one]
  · simp only [RigidBodyTransform.getRotationAxisAngle,
      RigidBodyTransform.isRotationMatrixEpsilonIdentity,
      RigidBodyTransform.setIdentity]
    norm_num

/-- C3 amended: whenever the squared sum of the off-diagonal asymmetries does
not exceed epsilon and the matrix passes the 10*epsilon identity test
(off-diagonal sums and trace each within 10*epsilon of the identity's), the
axis-angle extraction returns angle 0 with axis (0, 1, 0). -/
theorem c3_near_identity_axis_angle (a : RigidBodyTransform) (ε : ℝ)
    (hmag : ¬((a.mat21 - a.mat12) * (a.mat21 - a.mat12) +
      (a.mat02 - a.mat20) * (a.mat02 - a.mat20) +
      (a.mat10 - a.mat01) * (a.mat10 - a.mat01) > ε))
    (hid : a.isRotationMatrixEpsilonIdentity (10 * ε)) :
    a.getRotationAxisAngle ε = ⟨0, 1, 0, 0⟩ := by
  unfold RigidBodyTransform.getRotationAxisAngle
  rw [if_neg hmag, if_pos hid]

/-- Witness for C3 amended: the identity matrix with the default epsilon 1e-12
satisfies both branch conditions and yields axis (0, 1, 0) with angle 0. -/
theorem c3_near_identity_axis_angle_witness :
    (¬((RigidBodyTransform.setIdentity.mat21 - RigidBodyTransform.setIdentity.mat12) *
        (RigidBodyTransform.setIdentity.mat21 - RigidBodyTransform.setIdentity.mat12) +
      (RigidBodyTransform.setIdentity.mat02 - RigidBodyTransform.setIdentity.mat20) *
        (RigidBodyTransform.setIdentity.mat02 - RigidBodyTransform.setIdentity.mat20) +
      (RigidBodyTransform.setIdentity.mat10 - RigidBodyTransform.setIdentity.mat01) *
        (RigidBodyTransform.setIdentity.mat10 - RigidBodyTransform.setIdentity.mat01) >
        (1e-12 : ℝ))) ∧
    RigidBodyTransform.setIdentity.isRotationMatrixEpsilonIdentity (10 * 1e-12) ∧
    RigidBodyTransform.setIdentity.getRotationAxisAngle 1e-12 = ⟨0, 1, 0, 0⟩ := by
  have hmag : ¬((RigidBodyTransform.setIdentity.mat21 - RigidBodyTransform.setIdentity.mat12) *
      (RigidBodyTransform.setIdentity.mat21 - RigidBodyTransform.setIdentity.mat12) +
      (RigidBodyTransform.setIdentity.mat02 - RigidBodyTransform.setIdentity.mat20) *
        (RigidBodyTransform.setIdentity.mat02 - RigidBodyTransform.setIdentity.mat20) +
      (RigidBodyTransform.setIdentity.mat10 - RigidBodyTransform.setIdentity.mat01) *
        (RigidBodyTransform.setIdentity.mat10 - RigidBodyTransform.setIdentity.mat01) >
        (1e-12 : ℝ)) := by
    simp only [RigidBodyTransform.setIdentity]
    norm_num
  have hid : RigidBodyTransform.setIdentity.isRotationMatrixEpsilonIdentity (10 * 1e-12) := by
    simp only [RigidBodyTransform.isRotationMatrixEpsilonIdentity,
      RigidBodyTransform.setIdentity]
    norm_num
  exact ⟨hmag, hid, c3_near_identity_axis_angle _ _ hmag hid⟩

namespace RigidBodyTransform

/-- RigidBodyTransform::setEuler (src/src/RigidBodyTransform.cpp:535): the
rotation matrix built from X-Y-Z rotation angles (Rz * Ry * Rx on column
vectors), with the translation column set to zero. -/
def setEuler (rotX rotY rotZ : ℝ) : RigidBodyTransform where
  mat00 := Real.cos rotY * Real.cos rotZ
  mat01 := -(Real.cos rotX * Real.sin rotZ) + Real.sin rotX * Real.sin rotY * Real.cos rotZ
  mat02 := Real.sin rotX * Real.sin rotZ + Real.cos rotX * Real.sin rotY * Real.cos rotZ
  mat03 := 0
  mat10 := Real.cos rotY * Real.sin rotZ
  mat11 := Real.cos rotX * Real.cos rotZ + Real.sin rotX * Real.sin rotY * Real.sin rotZ
  mat12 := -(Real.sin rotX * Real.cos rotZ) + Real.cos rotX * Real.sin rotY * Real.sin rotZ
  mat13 := 0
  mat20 := -Real.sin rotY
  mat21 := Real.sin rotX * Real.cos rotY
  mat22 := Real.cos rotX * Real.cos rotY
  mat23 := 0

/-- RigidBodyTransform::getEulerXYZ (src/src/RigidBodyTransform.cpp:566):
rx = atan2(m21, m22), ry = atan2(-m20, sqrt(m21^2 + m22^2)),
rz = atan2(m10, m00). -/
def getEulerXYZ (a : RigidBodyTransform) : ℝ × ℝ × ℝ :=
  (atan2 a.mat21 a.mat22,
   atan2 (-a.mat20) (Real.sqrt (a.mat21 * a.mat21 + a.mat22 * a.mat22)),
   atan2 a.mat10 a.mat00)

end RigidBodyTransform

/-- Cosine of atan2 in terms of the two arguments, when they are not both
zero. -/
theorem cos_atan2 (y x : ℝ) (h : x * x + y * y ≠ 0) :
    Real.cos (atan2 y x) = x / Real.sqrt (x * x + y * y) := by
  have hz : (⟨x, y⟩ : ℂ) ≠ 0 := by
    intro h0
    apply h
    have hre := congrArg Complex.re h0
    have him := congrArg Complex.im h0
    simp at hre him
    rw [hre, him]
    ring
  rw [atan2, Complex.cos_arg hz, Complex.abs_apply, Complex.normSq_mk]

/-- Sine of atan2 in terms of the two arguments. -/
theorem sin_atan2 (y x : ℝ) :
    Real.sin (atan2 y x) = y / Real.sqrt (x * x + y * y) := by
  rw [atan2, Complex.sin_arg, Complex.abs_apply, Complex.normSq_mk]

/-- atan2(1, 0) is pi/2. -/
theorem atan2_one_zero : atan2 1 0 = Real.pi / 2 := by
  rw [atan2]
  exact Complex.arg_I

/-- atan2(-1, 0) is -pi/2. -/
theorem atan2_neg_one_zero : atan2 (-1) 0 = -(Real.pi / 2) := by
  rw [atan2]
  have h : (⟨0, -1⟩ : ℂ) = -Complex.I := by
    apply Complex.ext <;> simp
  rw [h, Complex.arg_neg_I]

/-- atan2(0, 1) is 0. -/
theorem atan2_zero_one : atan2 0 1 = 0 := by
  rw [atan2]
  exact Complex.arg_one

/-- Rebuilding lemma for the Euler round trip: if the sines and cosines of
the three recovered angles agree with those of the original angles up to a
common sign sigma on cos A, sin A, cos B, cos C, sin C (and exactly on
sin B), the rebuilt matrix equals the original. -/
theorem RigidBodyTransform.eulerRebuild (rx ry rz bigA bigB bigC σ : ℝ)
    (hσ : σ * σ = 1)
    (hcA : Real.cos bigA = Real.cos rx * σ) (hsA : Real.sin bigA = Real.sin rx * σ)
    (hcB : Real.cos bigB = Real.cos ry * σ) (hsB : Real.sin bigB = Real.sin ry)
    (hcC : Real.cos bigC = Real.cos rz * σ) (hsC : Real.sin bigC = Real.sin rz * σ) :
    RigidBodyTransform.setEuler bigA bigB bigC = RigidBodyTransform.setEuler rx ry rz := by
  refine RigidBodyTransform.ext ?_ ?_ ?_ ?_ ?_ ?_ ?_ ?_ ?_ ?_ ?_ ?_ <;>
    simp only [RigidBodyTransform.setEuler]
  · rw [hcB, hcC]
    linear_combination (Real.cos ry * Real.cos rz) * hσ
  · rw [hcA, hsC, hsA, hsB, hcC]
    linear_combination (Real.sin rx * Real.sin ry * Real.cos rz -
      Real.cos rx * Real.sin rz) * hσ
  · rw [hsA, hsC, hcA, hsB, hcC]
    linear_combination (Real.sin rx * Real.sin rz +
      Real.cos rx * Real.sin ry * Real.cos rz) * hσ
  · rw [hcB, hsC]
    linear_combination (Real.cos ry * Real.sin rz) * hσ
  · rw [hcA, hcC, hsA, hsB, hsC]
    linear_combination (Real.cos rx * Real.cos rz +
      Real.sin rx * Real.sin ry * Real.sin rz) * hσ
  · rw [hsA, hcC, hcA, hsB, hsC]
    linear_combination (Real.cos rx * Real.sin ry * Real.sin rz -
      Real.sin rx * Real.cos rz) * hσ
  · rw [hsB]
  · rw [hsA, hcB]
    linear_combination (Real.sin rx * Real.cos ry) * hσ
  · rw [hcA, hcB]
    linear_combination (Real.cos rx * Real.cos ry) * hσ

/-- C6: for every Euler triple whose built matrix has its extracted pitch at
distance at least 1e-4 from both pi/2 and -pi/2, extracting Euler XYZ angles
and rebuilding reproduces every entry of the original matrix to 1e-8 (in
exact arithmetic, exactly). -/
theorem c6_euler_round_trip (rx ry rz : ℝ)
    (hp1 : |(RigidBodyTransform.setEuler rx ry rz).getEulerXYZ.2.1 - Real.pi / 2| ≥ 1e-4)
    (hp2 : |(RigidBodyTransform.setEuler rx ry rz).getEulerXYZ.2.1 + Real.pi / 2| ≥ 1e-4) :
    entriesWithin
      (RigidBodyTransform.setEuler
        (RigidBodyTransform.setEuler rx ry rz).getEulerXYZ.1
        (RigidBodyTransform.setEuler rx ry rz).getEulerXYZ.2.1
        (RigidBodyTransform.setEuler rx ry rz).getEulerXYZ.2.2)
      (RigidBodyTransform.setEuler rx ry rz) 1e-8 := by
  have pyth_a : Real.sin rx * Real.sin rx + Real.cos rx * Real.cos rx = 1 := by
    linear_combination Real.sin_sq_add_cos_sq rx
  have pyth_b : Real.sin ry * Real.sin ry + Real.cos ry * Real.cos ry = 1 := by
    linear_combination Real.sin_sq_add_cos_sq ry
  have pyth_c : Real.sin rz * Real.sin rz + Real.cos rz * Real.cos rz = 1 := by
    linear_combination Real.sin_sq_add_cos_sq rz
  have hcb : Real.cos ry ≠ 0 := by
    intro h0
    have hpit : (RigidBodyTransform.setEuler rx ry rz).getEulerXYZ.2.1 =
        atan2 (Real.sin ry) 0 := by
      simp [RigidBodyTransform.getEulerXYZ, RigidBodyTransform.setEuler, h0]
    have hs2 : (Real.sin ry - 1) * (Real.sin ry + 1) = 0 := by
      have h := Real.sin_sq_add_cos_sq ry
      rw [h0] at h
      linear_combination h
    rcases mul_eq_zero.mp hs2 with h1 | h1
    · have hsb : Real.sin ry = 1 := by linarith
      rw [hpit, hsb, atan2_one_zero, sub_self, abs_zero] at hp1
      norm_num at hp1
    · have hsb : Real.sin ry = -1 := by linarith
      rw [hpit, hsb, atan2_neg_one_zero] at hp2
      have h00 : -(Real.pi / 2) + Real.pi / 2 = 0 := by ring
      rw [h00, abs_zero] at hp2
      norm_num at hp2
  have hsumA : Real.cos rx * Real.cos ry * (Real.cos rx * Real.cos ry) +
      Real.sin rx * Real.cos ry * (Real.sin rx * Real.cos ry) =
      Real.cos ry * Real.cos ry := by
    linear_combination (Real.cos ry * Real.cos ry) * pyth_a
  have hsumB : Real.sin rx * Real.cos ry * (Real.sin rx * Real.cos ry) +
      Real.cos rx * Real.cos ry * (Real.cos rx * Real.cos ry) =
      Real.cos ry * Real.cos ry := by
    linear_combination (Real.cos ry * Real.cos ry) * pyth_a
  have hsumC : Real.cos ry * Real.cos rz * (Real.cos ry * Real.cos rz) +
      Real.cos ry * Real.sin rz * (Real.cos ry * Real.sin rz) =
      Real.cos ry * Real.cos ry := by
    linear_combination (Real.cos ry * Real.cos ry) * pyth_c
  have hsumD : |Real.cos ry| * |Real.cos ry| + Real.sin ry * Real.sin ry = 1 := by
    rw [abs_mul_abs_self]
    linear_combination pyth_b
  have hcbcb : Real.cos ry * Real.cos ry ≠ 0 := mul_ne_zero hcb hcb
  have hneA : Real.cos rx * Real.cos ry * (Real.cos rx * Real.cos ry) +
      Real.sin rx * Real.cos ry * (Real.sin rx * Real.cos ry) ≠ 0 := by
    rw [hsumA]
    exact hcbcb
  have hneC : Real.cos ry * Real.cos rz * (Real.cos ry * Real.cos rz) +
      Real.cos ry * Real.sin rz * (Real.cos ry * Real.sin rz) ≠ 0 := by
    rw [hsumC]
    exact hcbcb
  have hneD : |Real.cos ry| * |Real.cos ry| + Real.sin ry * Real.sin ry ≠ 0 := by
    rw [hsumD]
    exact one_ne_zero
  have hget : (RigidBodyTransform.setEuler rx ry rz).getEulerXYZ =
      (atan2 (Real.sin rx * Real.cos ry) (Real.cos rx * Real.cos ry),
       atan2 (Real.sin ry) |Real.cos ry|,
       atan2 (Real.cos ry * Real.sin rz) (Real.cos ry * Real.cos rz)) := by
    simp only [RigidBodyTransform.getEulerXYZ, RigidBodyTransform.setEuler, neg_neg]
    rw [hsumB, Real.sqrt_mul_self_eq_abs]
  have hcA0 : Real.cos (atan2 (Real.sin rx * Real.cos ry) (Real.cos rx * Real.cos ry)) =
      Real.cos rx * Real.cos ry / |Real.cos ry| := by
    rw [cos_atan2 _ _ hneA, hsumA, Real.sqrt_mul_self_eq_abs]
  have hsA0 : Real.sin (atan2 (Real.sin rx * Real.cos ry) (Real.cos rx * Real.cos ry)) =
      Real.sin rx * Real.cos ry / |Real.cos ry| := by
    rw [sin_atan2, hsumA, Real.sqrt_mul_self_eq_abs]
  have hcB0 : Real.cos (atan2 (Real.sin ry) |Real.cos ry|) = |Real.cos ry| := by
    rw [cos_atan2 _ _ hneD, hsumD, Real.sqrt_one, div_one]
  have hsB0 : Real.sin (atan2 (Real.sin ry) |Real.cos ry|) = Real.sin ry := by
    rw [sin_atan2, hsumD, Real.sqrt_one, div_one]
  have hcC0 : Real.cos (atan2 (Real.cos ry * Real.sin rz) (Real.cos ry * Real.cos rz)) =
      Real.cos ry * Real.cos rz / |Real.cos ry| := by
    rw [cos_atan2 _ _ hneC, hsumC, Real.sqrt_mul_self_eq_abs]
  have hsC0 : Real.sin (atan2 (Real.cos ry * Real.sin rz) (Real.cos ry * Real.cos rz)) =
      Real.cos ry * Real.sin rz / |Real.cos ry| := by
    rw [sin_atan2, hsumC, Real.sqrt_mul_self_eq_abs]
  rw [hget]
  show entriesWithin
    (RigidBodyTransform.setEuler
      (atan2 (Real.sin rx * Real.cos ry) (Real.cos rx * Real.cos ry))
      (atan2 (Real.sin ry) |Real.cos ry|)
      (atan2 (Real.cos ry * Real.sin rz) (Real.cos ry * Real.cos rz)))
    (RigidBodyTransform.setEuler rx ry rz) 1e-8
  have hkey : RigidBodyTransform.setEuler
      (atan2 (Real.sin rx * Real.cos ry) (Real.cos rx * Real.cos ry))
      (atan2 (Real.sin ry) |Real.cos ry|)
      (atan2 (Real.cos ry * Real.sin rz) (Real.cos ry * Real.cos rz)) =
      RigidBodyTransform.setEuler rx ry rz := by
    rcases hcb.lt_or_lt with hneg | hpos
    · have habs : |Real.cos ry| = -Real.cos ry := abs_of_neg hneg
      apply RigidBodyTransform.eulerRebuild rx ry rz _ _ _ (-1) (by ring)
      · rw [hcA0, habs, div_neg, mul_div_assoc, div_self hcb]
        ring
      · rw [hsA0, habs, div_neg, mul_div_assoc, div_self hcb]
        ring
      · rw [hcB0, habs]
        ring
      · exact hsB0
      · rw [hcC0, habs, div_neg, mul_comm (Real.cos ry) (Real.cos rz),
          mul_div_assoc, div_self hcb]
        ring
      · rw [hsC0, habs, div_neg, mul_comm (Real.cos ry) (Real.sin rz),
          mul_div_assoc, div_self hcb]
        ring
    · have habs : |Real.cos ry| = Real.cos ry := abs_of_pos hpos
      apply RigidBodyTransform.eulerRebuild rx ry rz _ _ _ 1 (by ring)
      · rw [hcA0, habs, mul_div_assoc, div_self hcb]
      · rw [hsA0, habs, mul_div_assoc, div_self hcb]
      · rw [hcB0, habs, mul_one]
      · exact hsB0
      · rw [hcC0, habs, mul_comm (Real.cos ry) (Real.cos rz),
          mul_div_assoc, div_self hcb]
      · rw [hsC0, habs, mul_comm (Real.cos ry) (Real.sin rz),
          mul_div_assoc, div_self hcb]
  rw [hkey]
  refine ⟨?_, ?_, ?_, ?_, ?_, ?_, ?_, ?_, ?_, ?_, ?_, ?_⟩ <;>
    norm_num

/-- Witness for C6 at the zero Euler triple: its pitch is 0, at distance
pi/2 > 1e-4 from both gimbal-lock values, and the round trip reproduces the
matrix. -/
theorem c6_euler_round_trip_witness :
    (|(RigidBodyTransform.setEuler 0 0 0).getEulerXYZ.2.1 - Real.pi / 2| ≥ 1e-4) ∧
    (|(RigidBodyTransform.setEuler 0 0 0).getEulerXYZ.2.1 + Real.pi / 2| ≥ 1e-4) ∧
    entriesWithin
      (RigidBodyTransform.setEuler
        (RigidBodyTransform.setEuler 0 0 0).getEulerXYZ.1
        (RigidBodyTransform.setEuler 0 0 0).getEulerXYZ.2.1
        (RigidBodyTransform.setEuler 0 0 0).getEulerXYZ.2.2)
      (RigidBodyTransform.setEuler 0 0 0) 1e-8 := by
  have hpitch : (RigidBodyTransform.setEuler 0 0 0).getEulerXYZ.2.1 = 0 := by
    simp [RigidBodyTransform.getEulerXYZ, RigidBodyTransform.setEuler,
      Real.sqrt_one, atan2_zero_one]
  have hpi : (3 : ℝ) < Real.pi := Real.pi_gt_three
  have hp1 : |(RigidBodyTransform.setEuler 0 0 0).getEulerXYZ.2.1 - Real.pi / 2| ≥ 1e-4 := by
    rw [hpitch, zero_sub, abs_neg, abs_of_pos (by linarith)]
    linarith
  have hp2 : |(RigidBodyTransform.setEuler 0 0 0).getEulerXYZ.2.1 + Real.pi / 2| ≥ 1e-4 := by
    rw [hpitch, zero_add, abs_of_pos (by linarith)]
    linarith
  exact ⟨hp1, hp2, c6_euler_round_trip 0 0 0 hp1 hp2⟩

/-- Error kinds surfaced by the frame layer (spec section 7):
DifferentRootsError and FrameMismatchError. -/
inductive FrameError
  | differentRoots
  | frameMismatch
deriving DecidableEq

/-- Modelled from the spec: the frame_utilities::ReferenceFrame state.
ReferenceFrame.cpp is not under src (only the declarations in
src/include/frame_utilities/ReferenceFrame.hpp and the tests are), so the
frame graph is modelled from spec sections 3, 4.3 and 4.4: frames are indexed
0..n-1; each carries its rootChain (framesStartingWithRootEndingWithThis,
fixed at construction, from the root down to and including the frame), its
transformToParent, the cached transformToRoot and its inverse, and a cache
generation stamp (transformToRootID); currentGen is the registry's monotone
generation counter (one shared counter conservatively stands for the per-tree
counters: merging them can only mark more caches stale, never fewer). -/
structure ReferenceFrameSys (n : ℕ) where
  chain : Fin n → List (Fin n)
  localToParent : Fin n → RigidBodyTransform
  cachedToRoot : Fin n → RigidBodyTransform
  cachedToRootInv : Fin n → RigidBodyTransform
  cacheGen : Fin n → ℤ
  currentGen : ℤ

namespace ReferenceFrameSys

/-- Composition of local transforms along a chain, left to right, starting
from the identity (spec 4.3, transformToRoot). -/
def composeChain {n : ℕ} (loc : Fin n → RigidBodyTransform)
    (l : List (Fin n)) : RigidBodyTransform :=
  l.foldl (fun acc g => acc.multiply (loc g)) RigidBodyTransform.setIdentity

/-- The transform-to-root a query must produce: the composition of the
current local transforms along the frame's rootChain. -/
def trueToRoot {n : ℕ} (s : ReferenceFrameSys n) (f : Fin n) : RigidBodyTransform :=
  composeChain s.localToParent (s.chain f)

/-- Store a computed running product (and its inverse, and the current
generation stamp) at one node, as the transformToRoot walk does (spec 4.3). -/
def storeCache {n : ℕ} (s : ReferenceFrameSys n) (g : Fin n)
    (t : RigidBodyTransform) : ReferenceFrameSys n :=
  { s with cachedToRoot := Function.update s.cachedToRoot g t
           cachedToRootInv := Function.update s.cachedToRootInv g t.invert
           cacheGen := Function.update s.cacheGen g s.currentGen }

/-- Modelled from the spec (4.3, transformToRoot): walk the rootChain left to
right, composing each localToParent into the accumulator and storing the
running product, its inverse, and the generation stamp at each node; return
the final product and the updated state. -/
def walkStore {n : ℕ} :
    ReferenceFrameSys n → List (Fin n) → RigidBodyTransform →
      RigidBodyTransform × ReferenceFrameSys n
  | s, [], acc => (acc, s)
  | s, g :: rest, acc =>
      walkStore (s.storeCache g (acc.multiply (s.localToParent g))) rest
        (acc.multiply (s.localToParent g))

/-- Modelled from the spec (4.3): getTransformToRoot returns the cached value
when the stamp matches the current generation and otherwise recomputes by the
storing walk. -/
def getTransformToRoot {n : ℕ} (s : ReferenceFrameSys n) (f : Fin n) :
    RigidBodyTransform × ReferenceFrameSys n :=
  if s.cacheGen f = s.currentGen then (s.cachedToRoot f, s)
  else walkStore s (s.chain f) RigidBodyTransform.setIdentity

/-- getRootFrame (src/include/frame_utilities/ReferenceFrame.hpp:50): the
first element of framesStartingWithRootEndingWithThis. -/
def getRootFrame {n : ℕ} (s : ReferenceFrameSys n) (f : Fin n) : Option (Fin n) :=
  (s.chain f).head?

/-- Modelled from the spec (4.3, transformTo): fail with DifferentRootsError
when the root frames differ, before any numeric work; otherwise ensure both
caches are valid and return other.cachedToRootInverse * self.cachedToRoot.
On the error path no transform and no state change is produced. -/
def getTransformToDesiredFrame {n : ℕ} (s : ReferenceFrameSys n) (f g : Fin n) :
    Except FrameError (RigidBodyTransform × ReferenceFrameSys n) :=
  if s.getRootFrame f ≠ s.getRootFrame g then .error .differentRoots
  else
    let p1 := s.getTransformToRoot f
    let p2 := p1.2.getTransformToRoot g
    .ok ((p2.2.cachedToRootInv g).multiply (p2.2.cachedToRoot f), p2.2)

/-- Modelled from the spec (4.3, setTransformToParent): replace the local
transform and bump the registry generation. -/
def setTransformToParent {n : ℕ} (s : ReferenceFrameSys n) (f : Fin n)
    (t : RigidBodyTransform) : ReferenceFrameSys n :=
  { s with localToParent := Function.update s.localToParent f t
           currentGen := s.currentGen + 1 }

/-- Modelled from the spec (4.3, update): run the updateTransformToParent
hook, assign its output to localToParent, and bump the generation; with the
hook output as an argument this is exactly setTransformToParent. -/
def update {n : ℕ} (s : ReferenceFrameSys n) (f : Fin n)
    (hookOutput : RigidBodyTransform) : ReferenceFrameSys n :=
  s.setTransformToParent f hookOutput

/-- Well-formedness of the frame system, from the construction protocol
(spec 3 and 4.3): every rootChain ends with its own frame, has no duplicates,
every prefix of a chain ending at g is exactly the chain of g (a child's
chain is its parent's chain with itself appended), and no cache stamp is
ahead of the registry generation. -/
structure WF {n : ℕ} (s : ReferenceFrameSys n) : Prop where
  chain_last : ∀ f, ∃ p, s.chain f = p ++ [f]
  chain_nodup : ∀ f, (s.chain f).Nodup
  chain_consistent : ∀ f g p q, s.chain f = p ++ g :: q → s.chain g = p ++ [g]
  gen_le : ∀ f, s.cacheGen f ≤ s.currentGen

end ReferenceFrameSys

/-- C8: for frames with different root frames, the transform-between-frames
query reports DifferentRootsError: no transform value and no state mutation
is produced. -/
theorem c8_cross_root_error {n : ℕ} (s : ReferenceFrameSys n) (f g : Fin n)
    (h : s.getRootFrame f ≠ s.getRootFrame g) :
    s.getTransformToDesiredFrame f g = .error FrameError.differentRoots := by
  unfold ReferenceFrameSys.getTransformToDesiredFrame
  rw [if_pos h]

/-- Witness for C8: a two-frame system with two distinct roots rejects the
query. -/
theorem c8_cross_root_error_witness :
    (let s : ReferenceFrameSys 2 :=
      { chain := ![[0], [1]]
        localToParent := fun _ => RigidBodyTransform.setIdentity
        cachedToRoot := fun _ => RigidBodyTransform.setIdentity
        cachedToRootInv := fun _ => RigidBodyTransform.setIdentity
        cacheGen := fun _ => -1
        currentGen := 0 }
     s.getRootFrame 0 ≠ s.getRootFrame 1 ∧
     s.getTransformToDesiredFrame 0 1 = .error FrameError.differentRoots) := by
  intro s
  have h : s.getRootFrame 0 ≠ s.getRootFrame 1 := by
    simp [ReferenceFrameSys.getRootFrame, s]
  exact ⟨h, c8_cross_root_error s 0 1 h⟩

namespace ReferenceFrameSys

/-- The storing walk never changes the local transforms, the chains, or the
registry generation. -/
theorem walkStore_preserves {n : ℕ} :
    ∀ (l : List (Fin n)) (s : ReferenceFrameSys n) (acc : RigidBodyTransform),
      (walkStore s l acc).2.localToParent = s.localToParent ∧
      (walkStore s l acc).2.chain = s.chain ∧
      (walkStore s l acc).2.currentGen = s.currentGen
  | [], _, _ => ⟨rfl, rfl, rfl⟩
  | g :: rest, s, acc => by
      have ih := walkStore_preserves rest
        (s.storeCache g (acc.multiply (s.localToParent g)))
        (acc.multiply (s.localToParent g))
      simpa [walkStore, storeCache] using ih

/-- The value returned by the storing walk is the left fold of multiply over
the walked list. -/
theorem walkStore_fst {n : ℕ} :
    ∀ (l : List (Fin n)) (s : ReferenceFrameSys n) (acc : RigidBodyTransform),
      (walkStore s l acc).1 =
        l.foldl (fun a g => a.multiply (s.localToParent g)) acc
  | [], _, _ => rfl
  | g :: rest, s, acc => by
      have ih := walkStore_fst rest
        (s.storeCache g (acc.multiply (s.localToParent g)))
        (acc.multiply (s.localToParent g))
      simpa [walkStore, storeCache] using ih

/-- Cache fields of nodes not on the walked list are untouched. -/
theorem walkStore_not_mem {n : ℕ} :
    ∀ (l : List (Fin n)) (s : ReferenceFrameSys n) (acc : RigidBodyTransform)
      (g : Fin n), g ∉ l →
      (walkStore s l acc).2.cachedToRoot g = s.cachedToRoot g ∧
      (walkStore s l acc).2.cachedToRootInv g = s.cachedToRootInv g ∧
      (walkStore s l acc).2.cacheGen g = s.cacheGen g
  | [], _, _, _, _ => ⟨rfl, rfl, rfl⟩
  | x :: rest, s, acc, g, hg => by
      have hgx : g ≠ x := fun h => hg (h ▸ List.mem_cons_self x rest)
      have hgr : g ∉ rest := fun h => hg (List.mem_cons_of_mem x h)
      have ih := walkStore_not_mem rest
        (s.storeCache x (acc.multiply (s.localToParent x)))
        (acc.multiply (s.localToParent x)) g hgr
      simp only [walkStore]
      refine ⟨?_, ?_, ?_⟩
      · rw [ih.1]
        simp [storeCache, Function.update_noteq hgx]
      · rw [ih.2.1]
        simp [storeCache, Function.update_noteq hgx]
      · rw [ih.2.2]
        simp [storeCache, Function.update_noteq hgx]

/-- After walking p ++ g :: q with g not recurring in q, the cache at g holds
the running product accumulated through g, its inverse, and the current
generation stamp. -/
theorem walkStore_mem {n : ℕ} :
    ∀ (p : List (Fin n)) (s : ReferenceFrameSys n) (acc : RigidBodyTransform)
      (g : Fin n) (q : List (Fin n)), g ∉ q →
      (walkStore s (p ++ g :: q) acc).2.cachedToRoot g =
        (p ++ [g]).foldl (fun a h => a.multiply (s.localToParent h)) acc ∧
      (walkStore s (p ++ g :: q) acc).2.cachedToRootInv g =
        ((p ++ [g]).foldl (fun a h => a.multiply (s.localToParent h)) acc).invert ∧
      (walkStore s (p ++ g :: q) acc).2.cacheGen g = s.currentGen
  | [], s, acc, g, q, hq => by
      simp only [List.nil_append, walkStore]
      have hnm := walkStore_not_mem q
        (s.storeCache g (acc.multiply (s.localToParent g)))
        (acc.multiply (s.localToParent g)) g hq
      refine ⟨?_, ?_, ?_⟩
      · rw [hnm.1]
        simp [storeCache]
      · rw [hnm.2.1]
        simp [storeCache]
      · rw [hnm.2.2]
        simp [storeCache]
  | x :: p, s, acc, g, q, hq => by
      simp only [List.cons_append, walkStore]
      have ih := walkStore_mem p
        (s.storeCache x (acc.multiply (s.localToParent x)))
        (acc.multiply (s.localToParent x)) g q hq
      simp only [List.append_eq] at ih ⊢
      refine ⟨?_, ?_, ?_⟩
      · rw [ih.1]
        simp [storeCache]
      · rw [ih.2.1]
        simp [storeCache]
      · rw [ih.2.2]
        simp [storeCache]

/-- Full behaviour of one getTransformToRoot call: when every currently
fresh cache is correct, the returned value is the composition of the current
locals along the chain, all non-cache state is preserved, every fresh cache
of the resulting state is correct (with respect to the pre-call locals),
freshness of other nodes is preserved, and the queried node ends up fresh. -/
theorem getTransformToRoot_spec {n : ℕ} (s : ReferenceFrameSys n)
    (hlast : ∀ f, ∃ p, s.chain f = p ++ [f])
    (hnodup : ∀ f, (s.chain f).Nodup)
    (hcons : ∀ f g p q, s.chain f = p ++ g :: q → s.chain g = p ++ [g])
    (hok : ∀ g, s.cacheGen g = s.currentGen →
      s.cachedToRoot g = trueToRoot s g ∧
      s.cachedToRootInv g = (trueToRoot s g).invert)
    (f : Fin n) :
    (s.getTransformToRoot f).1 = trueToRoot s f ∧
    (s.getTransformToRoot f).2.localToParent = s.localToParent ∧
    (s.getTransformToRoot f).2.chain = s.chain ∧
    (s.getTransformToRoot f).2.currentGen = s.currentGen ∧
    (∀ g, (s.getTransformToRoot f).2.cacheGen g = (s.getTransformToRoot f).2.currentGen →
      (s.getTransformToRoot f).2.cachedToRoot g = trueToRoot s g ∧
      (s.getTransformToRoot f).2.cachedToRootInv g = (trueToRoot s g).invert) ∧
    (∀ g, s.cacheGen g = s.currentGen →
      (s.getTransformToRoot f).2.cacheGen g = (s.getTransformToRoot f).2.currentGen) ∧
    (s.getTransformToRoot f).2.cacheGen f = (s.getTransformToRoot f).2.currentGen := by
  unfold getTransformToRoot
  split_ifs with hfresh
  · exact ⟨(hok f hfresh).1, rfl, rfl, rfl, hok, fun g hg => hg, hfresh⟩
  · obtain ⟨pres_loc, pres_chain, pres_gen⟩ :=
      walkStore_preserves (s.chain f) s RigidBodyTransform.setIdentity
    have hval : (walkStore s (s.chain f) RigidBodyTransform.setIdentity).1 =
        trueToRoot s f := walkStore_fst (s.chain f) s RigidBodyTransform.setIdentity
    refine ⟨hval, pres_loc, pres_chain, pres_gen, ?_, ?_, ?_⟩
    · intro g hg
      by_cases hmem : g ∈ s.chain f
      · obtain ⟨p, q, hdecomp⟩ := List.append_of_mem hmem
        have hq : g ∉ q := by
          have hnd := hnodup f
          rw [hdecomp] at hnd
          have := (List.nodup_cons.mp (hnd.of_append_right)).1
          exact this
        have hm := walkStore_mem p s RigidBodyTransform.setIdentity g q hq
        rw [hdecomp]
        have hcg : s.chain g = p ++ [g] := hcons f g p q hdecomp
        refine ⟨?_, ?_⟩
        · rw [hm.1]
          unfold trueToRoot composeChain
          rw [hcg]
        · rw [hm.2.1]
          unfold trueToRoot composeChain
          rw [hcg]
      · have hnm := walkStore_not_mem (s.chain f) s RigidBodyTransform.setIdentity g hmem
        rw [hnm.2.2, pres_gen] at hg
        have := hok g hg
        rw [hnm.1, hnm.2.1]
        exact this
    · intro g hg
      by_cases hmem : g ∈ s.chain f
      · obtain ⟨p, q, hdecomp⟩ := List.append_of_mem hmem
        have hq : g ∉ q := by
          have hnd := hnodup f
          rw [hdecomp] at hnd
          exact (List.nodup_cons.mp (hnd.of_append_right)).1
        have hm := walkStore_mem p s RigidBodyTransform.setIdentity g q hq
        rw [hdecomp]
        rw [hm.2.2,
          (walkStore_preserves (p ++ g :: q) s RigidBodyTransform.setIdentity).2.2]
      · have hnm := walkStore_not_mem (s.chain f) s RigidBodyTransform.setIdentity g hmem
        rw [hnm.2.2, pres_gen]
        exact hg
    · obtain ⟨p, hp⟩ := hlast f
      have hm := walkStore_mem p s RigidBodyTransform.setIdentity f []
        (List.not_mem_nil f)
      rw [hp]
      rw [hm.2.2,
        (walkStore_preserves (p ++ f :: []) s RigidBodyTransform.setIdentity).2.2]

end ReferenceFrameSys

/-- C9: after mutating any frame's local-to-parent transform (via
setTransformToParent, or via update, which is the same operation applied to
the hook output), the next getTransformToRoot returns the composition of the
current local transforms along the chain, and the next
getTransformToDesiredFrame (when the roots agree) returns the value computed
from those current locals; no stale cached value is ever returned, because
the generation bump precedes the cache check. -/
theorem c9_no_stale_reads {n : ℕ} (s : ReferenceFrameSys n)
    (wf : ReferenceFrameSys.WF s) (a N M : Fin n) (t : RigidBodyTransform) :
    ReferenceFrameSys.update s a t = s.setTransformToParent a t ∧
    ((s.setTransformToParent a t).getTransformToRoot N).1 =
      (s.setTransformToParent a t).trueToRoot N ∧
    ((s.setTransformToParent a t).getRootFrame N =
        (s.setTransformToParent a t).getRootFrame M →
      ∃ s2, (s.setTransformToParent a t).getTransformToDesiredFrame N M =
        .ok ((((s.setTransformToParent a t).trueToRoot M).invert).multiply
          ((s.setTransformToParent a t).trueToRoot N), s2)) := by
  set s' := s.setTransformToParent a t with hs'
  have hch : s'.chain = s.chain := rfl
  have hgen : s'.currentGen = s.currentGen + 1 := rfl
  have hcg : s'.cacheGen = s.cacheGen := rfl
  have hok' : ∀ g, s'.cacheGen g = s'.currentGen →
      s'.cachedToRoot g = s'.trueToRoot g ∧
      s'.cachedToRootInv g = (s'.trueToRoot g).invert := by
    intro g hg
    exfalso
    have hle := wf.gen_le g
    rw [hcg, hgen] at hg
    omega
  have hlast' : ∀ f, ∃ p, s'.chain f = p ++ [f] := wf.chain_last
  have hnodup' : ∀ f, (s'.chain f).Nodup := wf.chain_nodup
  have hcons' : ∀ f g p q, s'.chain f = p ++ g :: q → s'.chain g = p ++ [g] :=
    wf.chain_consistent
  have spec1 := ReferenceFrameSys.getTransformToRoot_spec s' hlast' hnodup' hcons' hok' N
  refine ⟨rfl, spec1.1, ?_⟩
  intro hroot
  set s1 := (s'.getTransformToRoot N).2 with hs1
  obtain ⟨hv1, hloc1, hch1, hgen1, hok1, hpresf1, hfreshN⟩ := spec1
  have htrue1 : ∀ g, s1.trueToRoot g = s'.trueToRoot g := by
    intro g
    unfold ReferenceFrameSys.trueToRoot
    rw [hloc1, hch1]
  have hlast1 : ∀ f, ∃ p, s1.chain f = p ++ [f] := by
    rw [hch1]
    exact hlast'
  have hnodup1 : ∀ f, (s1.chain f).Nodup := by
    rw [hch1]
    exact hnodup'
  have hcons1 : ∀ f g p q, s1.chain f = p ++ g :: q → s1.chain g = p ++ [g] := by
    rw [hch1]
    exact hcons'
  have hok1' : ∀ g, s1.cacheGen g = s1.currentGen →
      s1.cachedToRoot g = s1.trueToRoot g ∧
      s1.cachedToRootInv g = (s1.trueToRoot g).invert := by
    intro g hg
    have h := hok1 g hg
    rw [htrue1]
    exact h
  have spec2 := ReferenceFrameSys.getTransformToRoot_spec s1 hlast1 hnodup1 hcons1 hok1' M
  set s2 := (s1.getTransformToRoot M).2 with hs2
  obtain ⟨hv2, hloc2, hch2, hgen2, hok2, hpresf2, hfreshM⟩ := spec2
  have hNfresh2 : s2.cacheGen N = s2.currentGen := hpresf2 N hfreshN
  have hcachedN : s2.cachedToRoot N = s'.trueToRoot N := by
    have h := (hok2 N hNfresh2).1
    rw [h, htrue1]
  have hcachedInvM : s2.cachedToRootInv M = (s'.trueToRoot M).invert := by
    have h := (hok2 M hfreshM).2
    rw [h, htrue1]
  refine ⟨s2, ?_⟩
  unfold ReferenceFrameSys.getTransformToDesiredFrame
  rw [if_neg (fun hne => hne hroot)]
  show Except.ok ((s2.cachedToRootInv M).multiply (s2.cachedToRoot N), s2) = _
  rw [hcachedInvM, hcachedN]

/-- Witness for C9: in a concrete two-frame chain (root 0 with child 1),
after mutating the root's local transform, the next transformToRoot on the
child returns the composition of the current locals. -/
theorem c9_no_stale_reads_witness :
    (let s : ReferenceFrameSys 2 :=
      { chain := ![[0], [0, 1]]
        localToParent := fun _ => RigidBodyTransform.setIdentity
        cachedToRoot := fun _ => RigidBodyTransform.setIdentity
        cachedToRootInv := fun _ => RigidBodyTransform.setIdentity
        cacheGen := fun _ => -1
        currentGen := 0 }
     ((s.setTransformToParent 0 RigidBodyTransform.setIdentity).getTransformToRoot 1).1 =
       (s.setTransformToParent 0 RigidBodyTransform.setIdentity).trueToRoot 1) := by
  intro s
  have wf : ReferenceFrameSys.WF s := by
    refine ⟨?_, ?_, ?_, ?_⟩
    · intro f
      fin_cases f
      · exact ⟨[], rfl⟩
      · exact ⟨[0], rfl⟩
    · intro f
      fin_cases f <;> simp [s]
    · intro f g p q h
      fin_cases f <;> rcases p with _ | ⟨x, _ | ⟨y, p⟩⟩ <;>
        simp_all [s] <;> fin_cases g <;> simp_all
    · intro f
      norm_num [s]
  exact (c9_no_stale_reads s wf 0 1 0 RigidBodyTransform.setIdentity).2.1
